import Mathlib

/-!
# Verification of the chat-cl-ab communication assistant core

Shallow embedding of the core logic of `src/core.py` (classes
`AIProviderManager` and `MinimalChatBot`) and the one relevant call site in
`src/app.py`.  Python dictionaries keyed by strings or integers are modelled
as association lists; `os.getenv` and the per-vendor HTTP calls are modelled
as explicit oracle functions; Python exceptions are modelled with `Except`;
`None`-or-string values with `Option String` (Python truthiness of a string
result is `≠ some ""` and `≠ none`).
-/

namespace ChatClAb

/-! ## Association-list helpers (Python `dict` with `.get` defaults) -/

/-- `d.get(k, default)` on an integer-keyed dict modelled as an assoc list. -/
def lookupD : List (Nat × Nat) → Nat → Nat → Nat
  | [], _, d => d
  | kv :: rest, k, d => if kv.1 = k then kv.2 else lookupD rest k d

/-- `d[k] = v` on an integer-keyed dict modelled as an assoc list: replace
the binding of `k` (assoc lists built here bind each key once) or append
a new one. -/
def setKey : List (Nat × Nat) → Nat → Nat → List (Nat × Nat)
  | [], k, v => [(k, v)]
  | kv :: rest, k, v => if kv.1 = k then (k, v) :: rest else kv :: setKey rest k v

/-! ## Provider configuration (`config/ai_providers.json` entries) -/

/-- One entry of `providers_config["providers"]` (spec §3 ProviderConfig).
`calls_per_minute` is `none` when the `rate_limit` object or its
`calls_per_minute` key is absent; `_is_rate_limited` then defaults to 60. -/
structure ProviderConfig where
  enabled : Bool
  api_key_env : String
  default_model : String
  calls_per_minute : Option Nat
deriving DecidableEq, Repr

/-- `rate_limit.get("calls_per_minute", 60)` in `_is_rate_limited`. -/
def ProviderConfig.cpm (c : ProviderConfig) : Nat :=
  c.calls_per_minute.getD 60

/-- `self.rate_limits[provider_name]`: dict minute-bucket → call count. -/
abbrev BucketCounts := List (Nat × Nat)

/-- `self.rate_limits`: dict provider name → bucket counts. -/
abbrev RateState := List (String × BucketCounts)

/-- Read a provider's bucket dict (`self.rate_limits[provider_name]`,
created empty when absent). -/
def getLimits : RateState → String → BucketCounts
  | [], _ => []
  | kv :: rest, name => if kv.1 = name then kv.2 else getLimits rest name

/-- Store a provider's bucket dict back into the rate state. -/
def setLimits : RateState → String → BucketCounts → RateState
  | [], name, l => [(name, l)]
  | kv :: rest, name, l =>
    if kv.1 = name then (name, l) :: rest else kv :: setLimits rest name l

/-- The pruning loop of `_is_rate_limited` (core.py:369-371): delete every
bucket whose key is `< minute_key - 1` (i.e. keep the current and the
previous minute). -/
def pruneOld (minute_key : Nat) : BucketCounts → BucketCounts
  | [] => []
  | kv :: rest =>
    if kv.1 < minute_key - 1 then pruneOld minute_key rest
    else kv :: pruneOld minute_key rest

/-- `AIProviderManager._is_rate_limited` (core.py:355-379), acting on one
provider's bucket dict.  `minute_key = int(now // 60)` is a parameter.
Buckets with key `< minute_key - 1` are pruned; if the current bucket's
count has reached `calls_per_minute` the check reports `true` without
incrementing, otherwise it increments and reports `false`. -/
def is_rate_limited (cfg : ProviderConfig) (minute_key : Nat) (l : BucketCounts) :
    Bool × BucketCounts :=
  let pruned := pruneOld minute_key l
  let current_calls := lookupD pruned minute_key 0
  if cfg.cpm ≤ current_calls then
    (true, pruned)
  else
    (false, setKey pruned minute_key (current_calls + 1))

/-- `_is_rate_limited` on the full `self.rate_limits` state. -/
def is_rate_limitedS (name : String) (cfg : ProviderConfig) (minute_key : Nat)
    (rs : RateState) : Bool × RateState :=
  let (b, l) := is_rate_limited cfg minute_key (getLimits rs name)
  (b, setLimits rs name l)

/-! ## `_try_provider` and `generate_text` (the gateway) -/

/-- The provider names that `_try_provider` (core.py:337-349) dispatches to a
vendor `_call_*` adapter; any other name falls through to `return None`
without a network attempt. -/
def knownProviders : List String :=
  ["groq", "huggingface", "together", "cohere", "openai", "gemini"]

/-- Result of one `_try_provider` call: the returned `Optional[str]`, whether
a vendor adapter was dispatched (i.e. a network attempt was made), and the
updated rate-limit state. -/
structure TryResult where
  result : Option String
  attempted : Bool
  rate : RateState
deriving DecidableEq, Repr

/-- Python truthiness of an `Optional[str]`: `if result:` -/
def isTruthy : Option String → Bool
  | none => false
  | some s => s ≠ ""

/-- `AIProviderManager._try_provider` (core.py:310-353).
`providers` models `self.providers_config["providers"]`; `env` models
`os.getenv`; `net name` models the outcome of the vendor `_call_*` adapter
for `name` (`.error` = the adapter raised, caught by the `try/except`).
Python checks in order: provider present, config well-typed (implicit in
the typed model), enabled, credential resolvable (`if not api_key` is true
for both a missing and an empty environment variable), not rate-limited,
then dispatches by name. -/
def try_provider (providers : List (String × ProviderConfig))
    (env : String → Option String) (net : String → Except Unit (Option String))
    (minute_key : Nat) (name : String) (rs : RateState) : TryResult :=
  match (providers.find? (fun kv => kv.1 = name)).map (·.2) with
  | none => ⟨none, false, rs⟩
  | some cfg =>
    if ¬ cfg.enabled then ⟨none, false, rs⟩
    else
      match env cfg.api_key_env with
      | none => ⟨none, false, rs⟩
      | some key =>
        if key = "" then ⟨none, false, rs⟩
        else
          let rl := is_rate_limitedS name cfg minute_key rs
          if rl.1 then ⟨none, false, rl.2⟩
          else if name ∈ knownProviders then
            match net name with
            | .error _ => ⟨none, true, rl.2⟩
            | .ok r => ⟨r, true, rl.2⟩
          else ⟨none, false, rl.2⟩

/-- Result of `generate_text`: the returned `Optional[str]`, the ordered list
of providers for which a vendor adapter was dispatched, and the final
rate-limit state. -/
structure GenResult where
  result : Option String
  trace : List String
  rate : RateState
deriving DecidableEq, Repr

/-- The fallback loop of `AIProviderManager.generate_text` (core.py:300-308):
walk `fallback_order`, `continue`-ing on the preferred provider, returning
the first truthy `_try_provider` result, `none` when the list is
exhausted.  `tr` accumulates the network-attempt trace. -/
def tryFallback (providers : List (String × ProviderConfig))
    (env : String → Option String) (net : String → Except Unit (Option String))
    (minute_key : Nat) (preferred : Option String) :
    List String → RateState → List String → GenResult
  | [], rs, tr => ⟨none, tr, rs⟩
  | n :: rest, rs, tr =>
    if preferred = some n then
      tryFallback providers env net minute_key preferred rest rs tr
    else
      let r := try_provider providers env net minute_key n rs
      let tr2 := tr ++ (if r.attempted then [n] else [])
      if isTruthy r.result then ⟨r.result, tr2, r.rate⟩
      else tryFallback providers env net minute_key preferred rest r.rate tr2

/-- `AIProviderManager.generate_text` (core.py:289-308).  If
`preferred_provider` is truthy and in `fallback_order` it is tried first;
then the fallback loop runs, skipping the preferred name. -/
def generate_text (providers : List (String × ProviderConfig))
    (env : String → Option String) (net : String → Except Unit (Option String))
    (minute_key : Nat) (fallback_order : List String) (preferred : Option String)
    (rs : RateState) : GenResult :=
  match preferred with
  | some p =>
    if p ≠ "" ∧ p ∈ fallback_order then
      let r := try_provider providers env net minute_key p rs
      let tr := if r.attempted then [p] else []
      if isTruthy r.result then ⟨r.result, tr, r.rate⟩
      else tryFallback providers env net minute_key (some p) fallback_order r.rate tr
    else tryFallback providers env net minute_key (some p) fallback_order rs []
  | none => tryFallback providers env net minute_key none fallback_order rs []

/-! ## Python string primitives

`str.strip()` and `str.split()` are modelled directly on the character
list (Lean's own `String.trim`/`String.split` walk byte positions by
well-founded recursion, which blocks definitional evaluation inside
proofs; the list versions compute the same strings). -/

/-- Python `s.strip()`: remove leading and trailing whitespace. -/
def pyStrip (s : String) : String :=
  ⟨((s.data.dropWhile Char.isWhitespace).reverse.dropWhile Char.isWhitespace).reverse⟩

/-- Python `s.split()` (no separator): split on runs of whitespace, dropping
empty fields.  `w` accumulates the current word reversed. -/
def pySplitWs : List Char → List Char → List String
  | [], [] => []
  | [], w => [⟨w.reverse⟩]
  | c :: rest, w =>
    if c.isWhitespace then
      if w = [] then pySplitWs rest []
      else ⟨w.reverse⟩ :: pySplitWs rest []
    else pySplitWs rest (c :: w)

/-! ## The Gemini vendor adapter (`_call_gemini`) -/

/-- One element of `candidates[0]["content"]["parts"]`; `text` is `none` when
the `"text"` key is absent (`.get("text", "")`). -/
structure GeminiPart where
  text : Option String
deriving DecidableEq, Repr

/-- `candidates[0]["content"]`; `parts` is `none` when the `"parts"` key is
absent (`.get("parts", [])`). -/
structure GeminiContent where
  parts : Option (List GeminiPart)
deriving DecidableEq, Repr

/-- One element of the `"candidates"` array; `content` is `none` when the
`"content"` key is absent (`.get("content", {})`). -/
structure GeminiCandidate where
  content : Option GeminiContent
deriving DecidableEq, Repr

/-- A decoded Gemini HTTP response: status code plus the JSON body's
`"candidates"` key (`none` when absent: `result.get("candidates", [])`). -/
structure GeminiResponse where
  status_code : Nat
  candidates : Option (List GeminiCandidate)
deriving DecidableEq, Repr

/-- `AIProviderManager._call_gemini` (core.py:381-418).  `resp` models the
outcome of `requests.post(...)` followed by `response.json()`: `.error` when
either raised (network failure, timeout, malformed body) — caught by the
adapter's own `try/except`.  On a 200 response the adapter digs out
`candidates[0].content.parts[0].text`, strips it, and returns it only when
it is non-empty and longer than 20 characters; every other shape yields
`None`. -/
def call_gemini (resp : Except Unit GeminiResponse) : Option String :=
  match resp with
  | .error _ => none
  | .ok r =>
    if r.status_code = 200 then
      let candidates := r.candidates.getD []
      match candidates with
      | [] => none
      | c :: _ =>
        let parts := (c.content.map (fun ct => ct.parts.getD [])).getD []
        match parts with
        | [] => none
        | p :: _ =>
          let text := pyStrip (p.text.getD "")
          if text ≠ "" ∧ 20 < text.length then some text else none
    else none

/-! ## `MinimalChatBot`: word counting and text generation -/

/-- `len(s.split())`. -/
def countWords (s : String) : Nat :=
  (pySplitWs s.data []).length

/-- The fixed failure message of `MinimalChatBot.generate_text`
(core.py:618). -/
def genErrorMsg : String :=
  "❌ No se pudo generar contenido. Verifica que al menos un proveedor de IA esté configurado correctamente."

/-- `MinimalChatBot.generate_text` (core.py:604-618), as a function of the
gateway's `Optional[str]` result for the enhanced prompt: return
`result.strip()` when `result` is truthy and its strip is longer than 50
characters, otherwise the fixed error message. -/
def bot_generate_text (gateway_result : Option String) : String :=
  match gateway_result with
  | some r =>
    if r ≠ "" ∧ 50 < (pyStrip r).length then pyStrip r else genErrorMsg
  | none => genErrorMsg

/-! ## `MinimalChatBot.generate_multiple_options` -/

/-- One `(temp, approach, label)` rotation entry (core.py:625-631).
Temperatures are exact decimal literals; they are modelled in tenths
(`0.7 ↦ 7`, …, `1.1 ↦ 11`) to avoid floating point. -/
structure OptionCfg where
  temp : Nat
  approach : String
  label : String
deriving DecidableEq, Repr

/-- The fixed 5-entry `configurations` rotation (core.py:625-631). -/
def configurations : List OptionCfg :=
  [⟨7, "corporativo_inspiracional", "Profesional"⟩,
   ⟨9, "narrativo_emocional", "Emotiva"⟩,
   ⟨11, "cercano_familiar", "Cercana"⟩,
   ⟨8, "motivacional_energico", "Motivacional"⟩,
   ⟨10, "reflexivo_profundo", "Reflexiva"⟩]

/-- One element of the list returned by `generate_multiple_options`. -/
structure OptionOut where
  id : String
  label : String
  text : String
  temperature : Nat
  approach : String
deriving DecidableEq, Repr

/-- `MinimalChatBot.generate_multiple_options` (core.py:620-663).  `gen i`
models the gateway result `self.ai_provider.generate_text(...)` for loop
iteration `i` (each iteration builds its own approach-specific prompt and
temperature).  Every iteration appends an option tagged with the rotation
entry `configurations[i % 5]`; the text is the stripped result when it is
truthy and longer than 50 characters, else the per-label failure text. -/
def generate_multiple_options (gen : Nat → Option String) (num_options : Nat) :
    List OptionOut :=
  (List.range num_options).map (fun i =>
    let config := configurations.getD (i % configurations.length) ⟨0, "", ""⟩
    let result := gen i
    let ok := match result with
      | some r => decide (r ≠ "") && decide (50 < (pyStrip r).length)
      | none => false
    { id := "option_" ++ toString (i + 1)
      label := "Versión " ++ config.label
      text :=
        if ok then pyStrip (result.getD "")
        else "❌ No se pudo generar la versión " ++ config.label ++ ". Verifica la configuración de IA."
      temperature := config.temp
      approach := config.approach })

/-! ## `_correct_text_intelligently`: the deterministic correction fallback

The Python fallback applies `re.sub(pattern, replacement, text, flags=IGNORECASE)`
for six patterns of the shape `\bliteral\b` or `\bliterals?\b` in a fixed
order.  The engine below implements exactly that pattern class: a literal
stem, optionally followed by one `s`/`S` (regex `s?` is greedy, so the
longer alternative is tried first), with word boundaries on both sides.
`re.sub` scans left to right over the original text and substitutes
non-overlapping matches, so boundaries are judged on the original
characters and scanning resumes after each matched region. -/

/-- Python regex word character (`\w`, Unicode mode), restricted to the
alphabet that actually occurs in the replacement table and the spec's
inputs: ASCII alphanumerics, underscore, and Spanish accented letters. -/
def isWordChar (c : Char) : Bool :=
  c.isAlphanum || c = '_' ||
    c ∈ ['á', 'é', 'í', 'ó', 'ú', 'ü', 'ñ', 'Á', 'É', 'Í', 'Ó', 'Ú', 'Ü', 'Ñ']

/-- Case folding for `re.IGNORECASE`: ASCII via `Char.toLower`, plus the
Spanish accented uppercase letters. -/
def lowerX (c : Char) : Char :=
  match c with
  | 'Á' => 'á' | 'É' => 'é' | 'Í' => 'í' | 'Ó' => 'ó' | 'Ú' => 'ú'
  | 'Ü' => 'ü' | 'Ñ' => 'ñ'
  | _ => c.toLower

/-- Case-insensitive literal prefix match: returns the remaining characters
when `pat` matches a prefix of `cs`. -/
def prefixCI : List Char → List Char → Option (List Char)
  | [], cs => some cs
  | _ :: _, [] => none
  | p :: ps, c :: cs => if lowerX p = lowerX c then prefixCI ps cs else none

/-- `\b` to the left of a match starting with a word character: the previous
character (if any) is not a word character. -/
def boundaryBefore : Option Char → Bool
  | none => true
  | some c => ¬ isWordChar c

/-- `\b` to the right of a match ending with a word character: the next
character (if any) is not a word character. -/
def boundaryAfter : List Char → Bool
  | [] => true
  | c :: _ => ¬ isWordChar c

/-- Length of the match of `\bstem[s?]\b` (case-insensitive) at the head of
`cs`, given the previous original character `prev`; `none` when there is no
match here.  With `optS`, the greedy `s?` tries the longer variant first. -/
def matchLen (stem : List Char) (optS : Bool) (prev : Option Char)
    (cs : List Char) : Option Nat :=
  if boundaryBefore prev then
    match prefixCI stem cs with
    | none => none
    | some rest =>
      if optS then
        match rest with
        | c :: rest2 =>
          if lowerX c = 's' ∧ boundaryAfter rest2 then some (stem.length + 1)
          else if boundaryAfter rest then some stem.length else none
        | [] => some stem.length
      else if boundaryAfter rest then some stem.length else none
  else none

/-- Left-to-right non-overlapping substitution scan of `re.sub`.  `fuel` is
the remaining character budget (the top-level call passes the text length;
each step consumes at least one character, so the fuel never runs out
there). -/
def subScan (stem : List Char) (optS : Bool) (repl : List Char) :
    Nat → Option Char → List Char → List Char
  | 0, _, cs => cs
  | _ + 1, _, [] => []
  | fuel + 1, prev, c :: rest =>
    match matchLen stem optS prev (c :: rest) with
    | some n =>
      let matched := (c :: rest).take n
      repl ++ subScan stem optS repl fuel matched.getLast? ((c :: rest).drop n)
    | none => c :: subScan stem optS repl fuel (some c) rest

/-- `re.sub(r"\bstem[s?]\b", repl, s, flags=re.IGNORECASE)`. -/
def reSubWord (stem : String) (optS : Bool) (repl : String) (s : String) : String :=
  ⟨subScan stem.data optS repl.data s.data.length none s.data⟩

/-- The fixed substitution table of `_correct_text_intelligently`
(core.py:953-960), in insertion order.  `(stem, optS, replacement)` encodes
the pattern `\bstem\b` (`optS = false`) or `\bstems?\b` (`optS = true`);
note `\btrabajadores?\b` has stem `trabajadore`. -/
def replacements : List (String × Bool × String) :=
  [("empleado", true, "colaboradores"),
   ("trabajadore", true, "miembros del equipo"),
   ("personal", false, "equipo"),
   ("compañía", false, "empresa"),
   ("muy bueno", false, "excelente"),
   ("felicitaciones", false, "reconocimiento")]

/-- The closing sentence appended when the corrected text is under 30 words
(core.py:967). -/
def gratitudeSentence : String :=
  " Gracias por ser parte de nuestra gran familia Casa Limpia y por su dedicación constante."

/-- `MinimalChatBot._correct_text_intelligently` (core.py:948-969): apply the
substitution table in order, then append the gratitude sentence when the
result is under 30 words. -/
def correct_text_intelligently (text : String) : String :=
  let corrected := replacements.foldl
    (fun acc r => reSubWord r.1 r.2.1 r.2.2 acc) text
  if countWords corrected < 30 then corrected ++ gratitudeSentence else corrected

/-- `MinimalChatBot.correct_text` (core.py:665-680), as a function of the
gateway's result for the correction prompt: return the stripped gateway
result when it is truthy and longer than 50 characters after stripping,
otherwise fall back to `_correct_text_intelligently` on the input. -/
def correct_text (gateway_result : Option String) (text : String) : String :=
  match gateway_result with
  | some r =>
    if r ≠ "" ∧ 50 < (pyStrip r).length then pyStrip r
    else correct_text_intelligently text
  | none => correct_text_intelligently text

/-! ## Feedback recorder (`add_feedback`, `_update_user_preferences`) -/

/-- The dataclass `FeedbackEntry` (core.py:29-39). -/
structure FeedbackEntry where
  original_text : String
  generated_text : String
  rating : Int
  comments : String
  timestamp : String
  task_type : String
  category : String
  option_id : Option String
deriving DecidableEq, Repr

/-- The `user_preferences` sub-document of `learning_data.json`.
`positive_elements` is `none` until `_update_user_preferences` first
creates the key. -/
structure UserPreferences where
  preferred_length : String
  preferred_tone : String
  common_corrections : List String
  positive_elements : Option (List String)
deriving DecidableEq, Repr

/-- The default `user_preferences` created by `_update_user_preferences`
when the key is absent (core.py:1002-1007). -/
def defaultPreferences : UserPreferences :=
  ⟨"medium", "professional_warm", [], none⟩

/-- The parts of the `learning_data.json` document touched by
`add_feedback`.  `user_preferences` is `none` when the key is absent. -/
structure LearningData where
  feedback_history : List FeedbackEntry
  user_preferences : Option UserPreferences
deriving DecidableEq, Repr

/-- Python `lst[-n:]`: the last `n` elements (all of them when the list is
shorter). -/
def lastN (n : Nat) (l : List FeedbackEntry) : List FeedbackEntry :=
  l.drop (l.length - n)

/-- The fixed `positive_keywords` list (core.py:1026). -/
def positiveKeywords : List String :=
  ["excelente", "perfecto", "me gusta", "muy bien", "apropiado"]

/-- Python `s.lower()`, over the alphabet used here (ASCII plus Spanish
accented letters). -/
def pyLower (s : String) : String :=
  ⟨s.data.map lowerX⟩

/-- Case-insensitive substring test `keyword.lower() in comments.lower()`.
All keywords are already lowercase ASCII. -/
def keywordIn (keyword comments : String) : Bool :=
  decide ((pyLower keyword).data <:+: (pyLower comments).data)

/-- `MinimalChatBot._update_user_preferences` (core.py:1000-1032).  Creates
`user_preferences` when absent; for rating ≥ 4 recomputes
`preferred_length` from the word count of the generated text
(`< 100 ↦ "short"`, `> 250 ↦ "long"`, else `"medium"`) and, when the
comment is non-empty and contains a positive keyword, appends it to the
deduplicated `positive_elements` list (the Python loop appends at most
once: after the first matching keyword inserts the comment, the
deduplication test stops every later insertion). -/
def update_user_preferences (ld : LearningData) (feedback : FeedbackEntry) :
    LearningData :=
  let preferences := ld.user_preferences.getD defaultPreferences
  if 4 ≤ feedback.rating then
    let text_length : Nat := countWords feedback.generated_text
    let length_pref :=
      if text_length < 100 then "short"
      else if 250 < text_length then "long"
      else "medium"
    let preferences := { preferences with preferred_length := length_pref }
    let preferences :=
      if feedback.comments ≠ "" ∧
          positiveKeywords.any (fun k => keywordIn k feedback.comments) then
        let pe := preferences.positive_elements.getD []
        let pe2 := if feedback.comments ∈ pe then pe else pe ++ [feedback.comments]
        { preferences with positive_elements := some pe2 }
      else preferences
    { ld with user_preferences := some preferences }
  else
    { ld with user_preferences := some preferences }

/-- `MinimalChatBot.add_feedback` (core.py:971-998).  `now` models
`datetime.now().isoformat()`.  The entry is appended, the history is
truncated to its last 100 entries (`[-100:]`), and the preferences are
updated; the updated document is then persisted (persistence itself is
outside the model).  No validation of `rating` is performed anywhere in
the function. -/
def add_feedback (ld : LearningData) (original generated task_type : String)
    (rating : Int) (comments : String) (category : String)
    (option_id : Option String) (now : String) : LearningData :=
  let feedback_entry : FeedbackEntry :=
    ⟨original, generated, rating, comments, now, task_type, category, option_id⟩
  let history := ld.feedback_history ++ [feedback_entry]
  let history := lastN 100 history
  update_user_preferences { ld with feedback_history := history } feedback_entry

/-! ## The length-slider call site (`src/app.py:548-551`) -/

/-- `text_length_chars = text_length_words * 5` (app.py:550). -/
def text_length_chars (text_length_words : Nat) : Nat :=
  text_length_words * 5

/-- The formal parameters of `MinimalChatBot.generate_text` after `self`
(core.py:604): `def generate_text(self, prompt, preferred_provider=None)`.
There is no `**kwargs`. -/
def botGenerateTextParams : List String :=
  ["prompt", "preferred_provider"]

/-- The keyword arguments of the call
`chatbot.generate_text(user_input, preferred_provider=..., max_chars=text_length_chars)`
at app.py:551. -/
def appGenerateCallKwargs : List String :=
  ["preferred_provider", "max_chars"]

/-- A Python call binds successfully only when every keyword argument names a
formal parameter (absent `**kwargs`); otherwise it raises `TypeError`. -/
def kwCallAccepted (params kwargs : List String) : Bool :=
  kwargs.all (fun k => params.contains k)

/-! ## Lemmas about the rate-limit window -/

theorem lookupD_pruneOld (m d : Nat) (l : BucketCounts) :
    lookupD (pruneOld m l) m d = lookupD l m d := by
  induction l with
  | nil => rfl
  | cons kv rest ih =>
    obtain ⟨k, v⟩ := kv
    by_cases h1 : k < m - 1
    · have hk : ¬ (k = m) := by omega
      simp [pruneOld, lookupD, h1, hk, ih]
    · by_cases hk : k = m
      · have h2 : ¬ (m < m - 1) := by omega
        simp [pruneOld, lookupD, h1, hk, h2]
      · simp [pruneOld, lookupD, h1, hk, ih]

theorem lookupD_setKey (k v d : Nat) (l : List (Nat × Nat)) :
    lookupD (setKey l k v) k d = v := by
  induction l with
  | nil => simp [setKey, lookupD]
  | cons kv rest ih =>
    by_cases h : kv.1 = k
    · simp [setKey, lookupD, h]
    · simp [setKey, lookupD, h, ih]

/-- Count seen by a rate-limit check: pruning never touches the current
bucket, so the check compares exactly the stored count. -/
theorem is_rate_limited_true (cfg : ProviderConfig) (m : Nat) (l : BucketCounts)
    (h : cfg.cpm ≤ lookupD l m 0) :
    is_rate_limited cfg m l = (true, pruneOld m l) := by
  simp [is_rate_limited, lookupD_pruneOld, h]

theorem is_rate_limited_false (cfg : ProviderConfig) (m : Nat) (l : BucketCounts)
    (h : lookupD l m 0 < cfg.cpm) :
    is_rate_limited cfg m l =
      (false, setKey (pruneOld m l) m (lookupD l m 0 + 1)) := by
  simp [is_rate_limited, lookupD_pruneOld, Nat.not_le.mpr h]

/-- The bucket count after one check: unchanged when the ceiling was reached,
incremented otherwise. -/
theorem count_after_check (cfg : ProviderConfig) (m : Nat) (l : BucketCounts) :
    lookupD (is_rate_limited cfg m l).2 m 0 =
      if cfg.cpm ≤ lookupD l m 0 then lookupD l m 0 else lookupD l m 0 + 1 := by
  by_cases h : cfg.cpm ≤ lookupD l m 0
  · simp [is_rate_limited_true cfg m l h, lookupD_pruneOld, h]
  · simp [is_rate_limited_false cfg m l (Nat.not_le.mp h), lookupD_setKey,
      lookupD_pruneOld, h]

/-- Count after `n` successive eligibility checks in the same minute bucket,
starting from an empty bucket dict: `min n cpm`. -/
theorem count_after_iterate (cfg : ProviderConfig) (m : Nat) (n : Nat) :
    lookupD ((fun l => (is_rate_limited cfg m l).2)^[n] []) m 0 =
      min n cfg.cpm := by
  induction n with
  | zero => simp [lookupD]
  | succ n ih =>
    rw [Function.iterate_succ_apply', count_after_check, ih]
    by_cases h : cfg.cpm ≤ min n cfg.cpm
    · simp [h]; omega
    · simp [h]; omega

/-- If a provider's current-bucket count has reached its ceiling then
`_try_provider` makes no network attempt and returns `None` for it. -/
theorem try_provider_rate_limited (cfg : ProviderConfig) (m : Nat)
    (providers : List (String × ProviderConfig)) (env : String → Option String)
    (net : String → Except Unit (Option String)) (name : String) (rs : RateState)
    (hfind : (providers.find? (fun kv => kv.1 = name)).map (·.2) = some cfg)
    (hcpm : cfg.cpm ≤ lookupD (getLimits rs name) m 0) :
    (try_provider providers env net m name rs).attempted = false ∧
    (try_provider providers env net m name rs).result = none := by
  have hlim : (is_rate_limited cfg m (getLimits rs name)).1 = true := by
    rw [is_rate_limited_true cfg m _ hcpm]
  unfold try_provider
  rw [hfind]
  by_cases he : cfg.enabled
  · simp only [he, not_true, if_false]
    cases henv : env cfg.api_key_env with
    | none => exact ⟨rfl, rfl⟩
    | some key =>
      by_cases hk : key = ""
      · simp [hk]
      · simp only [hk, if_neg, is_rate_limitedS, hlim]
        simp
  · simp [he]

/-- C1: for every provider configuration and minute bucket, (i) after `n`
eligibility checks in one bucket the stored count is `min n cpm`, so it
never exceeds `calls_per_minute`; (ii) once the count has reached the
ceiling, a further check in the same bucket reports rate-limited and
leaves the count unchanged — in particular the `(N+1)`-th check after `N =
cpm` checks reports limited; (iii) a single check never pushes a compliant
count above the ceiling; (iv) when the count has reached the ceiling,
`_try_provider` makes no network attempt for the provider and returns
`None`. -/
theorem c1_rate_limit_invariant (cfg : ProviderConfig) (m : Nat) :
    (∀ n, lookupD ((fun l => (is_rate_limited cfg m l).2)^[n] []) m 0 =
        min n cfg.cpm)
    ∧ (∀ l, cfg.cpm ≤ lookupD l m 0 →
        (is_rate_limited cfg m l).1 = true ∧
        lookupD (is_rate_limited cfg m l).2 m 0 = lookupD l m 0)
    ∧ (∀ l, lookupD l m 0 ≤ cfg.cpm →
        lookupD (is_rate_limited cfg m l).2 m 0 ≤ cfg.cpm)
    ∧ (∀ providers env net name rs,
        (providers.find? (fun kv => kv.1 = name)).map (·.2) = some cfg →
        cfg.cpm ≤ lookupD (getLimits rs name) m 0 →
        (try_provider providers env net m name rs).attempted = false ∧
        (try_provider providers env net m name rs).result = none) := by
  refine ⟨count_after_iterate cfg m, ?_, ?_, ?_⟩
  · intro l h
    refine ⟨by rw [is_rate_limited_true cfg m l h], ?_⟩
    rw [count_after_check]
    simp [h]
  · intro l h
    rw [count_after_check]
    by_cases hc : cfg.cpm ≤ lookupD l m 0
    · simp [hc]; omega
    · simp [hc]; omega
  · intro providers env net name rs hfind hcpm
    exact try_provider_rate_limited cfg m providers env net name rs hfind hcpm

/-- Witness for C1 at `calls_per_minute = 2`, minute bucket 0: after 3 checks
the count is `min 3 2 = 2`, a state whose bucket count equals the ceiling
reports limited with no attempt, and `_try_provider` returns `None` there. -/
theorem c1_rate_limit_invariant_witness :
    (lookupD ((fun l =>
        (is_rate_limited ⟨true, "GEMINI_API_KEY", "gemini-1.5-flash", some 2⟩ 0 l).2)^[3]
        []) 0 0 = min 3 2)
    ∧ ((try_provider
        [("gemini", ⟨true, "GEMINI_API_KEY", "gemini-1.5-flash", some 2⟩)]
        (fun _ => some "k") (fun _ => .ok (some "some long enough text"))
        0 "gemini" [("gemini", [(0, 2)])]).attempted = false)
    ∧ ((try_provider
        [("gemini", ⟨true, "GEMINI_API_KEY", "gemini-1.5-flash", some 2⟩)]
        (fun _ => some "k") (fun _ => .ok (some "some long enough text"))
        0 "gemini" [("gemini", [(0, 2)])]).result = none) := by
  have H := c1_rate_limit_invariant
    ⟨true, "GEMINI_API_KEY", "gemini-1.5-flash", some 2⟩ 0
  have H4 := H.2.2.2 [("gemini", ⟨true, "GEMINI_API_KEY", "gemini-1.5-flash", some 2⟩)]
    (fun _ => some "k") (fun _ => .ok (some "some long enough text"))
    "gemini" [("gemini", [(0, 2)])] (by decide) (by decide)
  exact ⟨H.1 3, H4.1, H4.2⟩

/-! ## Lemmas about the fallback loop -/

theorem tryFallback_cons_skip (providers : List (String × ProviderConfig))
    (env : String → Option String) (net : String → Except Unit (Option String))
    (m : Nat) (pref : Option String) (n : String) (rest : List String)
    (rs : RateState) (tr : List String) (h : pref = some n) :
    tryFallback providers env net m pref (n :: rest) rs tr =
      tryFallback providers env net m pref rest rs tr := by
  simp [tryFallback, h]

theorem tryFallback_cons_hit (providers : List (String × ProviderConfig))
    (env : String → Option String) (net : String → Except Unit (Option String))
    (m : Nat) (pref : Option String) (n : String) (rest : List String)
    (rs : RateState) (tr : List String) (h : pref ≠ some n)
    (ht : isTruthy (try_provider providers env net m n rs).result) :
    tryFallback providers env net m pref (n :: rest) rs tr =
      ⟨(try_provider providers env net m n rs).result,
       tr ++ (if (try_provider providers env net m n rs).attempted then [n] else []),
       (try_provider providers env net m n rs).rate⟩ := by
  simp [tryFallback, h, ht]

theorem tryFallback_cons_miss (providers : List (String × ProviderConfig))
    (env : String → Option String) (net : String → Except Unit (Option String))
    (m : Nat) (pref : Option String) (n : String) (rest : List String)
    (rs : RateState) (tr : List String) (h : pref ≠ some n)
    (ht : ¬ isTruthy (try_provider providers env net m n rs).result) :
    tryFallback providers env net m pref (n :: rest) rs tr =
      tryFallback providers env net m pref rest
        (try_provider providers env net m n rs).rate
        (tr ++ (if (try_provider providers env net m n rs).attempted then [n] else [])) := by
  simp [tryFallback, h, ht]

/-- The trace accumulator of `tryFallback` is a pure prefix: running with
accumulator `tr` equals running with `[]` and prepending `tr`. -/
theorem tryFallback_acc (providers : List (String × ProviderConfig))
    (env : String → Option String) (net : String → Except Unit (Option String))
    (m : Nat) (pref : Option String) (l : List String) (rs : RateState)
    (tr : List String) :
    tryFallback providers env net m pref l rs tr =
      ⟨(tryFallback providers env net m pref l rs []).result,
       tr ++ (tryFallback providers env net m pref l rs []).trace,
       (tryFallback providers env net m pref l rs []).rate⟩ := by
  induction l generalizing rs tr with
  | nil => simp [tryFallback]
  | cons n rest ih =>
    by_cases hp : pref = some n
    · rw [tryFallback_cons_skip providers env net m pref n rest rs tr hp,
        tryFallback_cons_skip providers env net m pref n rest rs [] hp]
      exact ih rs tr
    · by_cases ht : isTruthy (try_provider providers env net m n rs).result
      · rw [tryFallback_cons_hit providers env net m pref n rest rs tr hp ht,
          tryFallback_cons_hit providers env net m pref n rest rs [] hp ht]
        simp
      · rw [tryFallback_cons_miss providers env net m pref n rest rs tr hp ht,
          tryFallback_cons_miss providers env net m pref n rest rs [] hp ht]
        rw [ih, ih _ ([] ++ (if (try_provider providers env net m n rs).attempted
          then [n] else []))]
        simp [List.append_assoc]

/-- The fallback pass never dispatches the preferred provider: its name does
not occur in the loop's network-attempt trace. -/
theorem tryFallback_preferred_not_mem (providers : List (String × ProviderConfig))
    (env : String → Option String) (net : String → Except Unit (Option String))
    (m : Nat) (p : String) (l : List String) (rs : RateState) :
    p ∉ (tryFallback providers env net m (some p) l rs []).trace := by
  induction l generalizing rs with
  | nil => simp [tryFallback]
  | cons n rest ih =>
    by_cases hp : (some p : Option String) = some n
    · rw [tryFallback_cons_skip providers env net m (some p) n rest rs [] hp]
      exact ih rs
    · have hnp : p ≠ n := fun h => hp (by rw [h])
      by_cases ht : isTruthy (try_provider providers env net m n rs).result
      · rw [tryFallback_cons_hit providers env net m (some p) n rest rs [] hp ht]
        by_cases ha : (try_provider providers env net m n rs).attempted
        · simp [ha, hnp]
        · simp [ha]
      · rw [tryFallback_cons_miss providers env net m (some p) n rest rs [] hp ht]
        rw [tryFallback_acc]
        simp only [List.mem_append]
        push_neg
        refine ⟨?_, ih _⟩
        by_cases ha : (try_provider providers env net m n rs).attempted
        · simp [ha, hnp]
        · simp [ha]

/-- `_try_provider` returns `None` without touching the network or the rate
state when the provider is absent from the registry, disabled, or its
environment variable is unset or empty. -/
theorem try_provider_ineligible (providers : List (String × ProviderConfig))
    (env : String → Option String) (net : String → Except Unit (Option String))
    (m : Nat) (name : String) (rs : RateState)
    (h : (providers.find? (fun kv => kv.1 = name)).map (·.2) = none
      ∨ ∃ cfg, (providers.find? (fun kv => kv.1 = name)).map (·.2) = some cfg
          ∧ (cfg.enabled = false ∨ env cfg.api_key_env = none
              ∨ env cfg.api_key_env = some "")) :
    try_provider providers env net m name rs = ⟨none, false, rs⟩ := by
  unfold try_provider
  rcases h with h | ⟨cfg, hfind, hc⟩
  · rw [h]
  · rw [hfind]
    rcases hc with hc | hc | hc
    · simp [hc]
    · simp [hc]
    · simp [hc]

/-- Unfolding of `generate_text` when the preferred provider is truthy and
present in the fallback order. -/
theorem generate_text_pref (providers : List (String × ProviderConfig))
    (env : String → Option String) (net : String → Except Unit (Option String))
    (m : Nat) (fallback : List String) (p : String) (rs : RateState)
    (h : p ≠ "" ∧ p ∈ fallback) :
    generate_text providers env net m fallback (some p) rs =
      if isTruthy (try_provider providers env net m p rs).result then
        ⟨(try_provider providers env net m p rs).result,
         (if (try_provider providers env net m p rs).attempted then [p] else []),
         (try_provider providers env net m p rs).rate⟩
      else
        tryFallback providers env net m (some p) fallback
          (try_provider providers env net m p rs).rate
          (if (try_provider providers env net m p rs).attempted then [p] else []) := by
  rw [generate_text, if_pos h]

/-- C2: when the preferred provider is truthy and present in the fallback
order, (i) the gateway's network-attempt trace is the preferred provider's
own (possibly empty) attempt followed by a tail in which the preferred
name never occurs — it is attempted first and skipped during the fallback
pass; (ii) if the preferred provider is unregistered, disabled, or lacks a
resolvable credential, no network request is made to it (its name is
absent from the whole trace) and the gateway runs exactly the fallback
pass over the remaining providers from the unchanged state. -/
theorem c2_preferred_provider (providers : List (String × ProviderConfig))
    (env : String → Option String) (net : String → Except Unit (Option String))
    (m : Nat) (fallback : List String) (p : String) (rs : RateState)
    (h1 : p ≠ "") (h2 : p ∈ fallback) :
    (∃ t, (generate_text providers env net m fallback (some p) rs).trace =
        (if (try_provider providers env net m p rs).attempted then [p] else []) ++ t
        ∧ p ∉ t)
    ∧ (((providers.find? (fun kv => kv.1 = p)).map (·.2) = none
        ∨ ∃ cfg, (providers.find? (fun kv => kv.1 = p)).map (·.2) = some cfg
            ∧ (cfg.enabled = false ∨ env cfg.api_key_env = none
                ∨ env cfg.api_key_env = some "")) →
        try_provider providers env net m p rs = ⟨none, false, rs⟩
        ∧ generate_text providers env net m fallback (some p) rs =
            tryFallback providers env net m (some p) fallback rs []
        ∧ p ∉ (generate_text providers env net m fallback (some p) rs).trace) := by
  have hcond : p ≠ "" ∧ p ∈ fallback := ⟨h1, h2⟩
  rw [generate_text_pref providers env net m fallback p rs hcond]
  constructor
  · by_cases ht : isTruthy (try_provider providers env net m p rs).result
    · refine ⟨[], ?_, by simp⟩
      simp [ht]
    · simp only [ht, if_false]
      rw [tryFallback_acc]
      exact ⟨(tryFallback providers env net m (some p) fallback
          (try_provider providers env net m p rs).rate []).trace, rfl,
        tryFallback_preferred_not_mem providers env net m p fallback _⟩
  · intro hinel
    have hpr := try_provider_ineligible providers env net m p rs hinel
    rw [hpr]
    simp only [isTruthy, Bool.false_eq_true, if_false]
    exact ⟨trivial, trivial, tryFallback_preferred_not_mem providers env net m p fallback rs⟩

/-- Witness for C2: a disabled `gemini` preferred provider with fallback
order `["gemini", "groq"]` is never dispatched, and the gateway runs the
plain fallback pass from the untouched state. -/
theorem c2_preferred_provider_witness :
    (∃ t, (generate_text
        [("gemini", ⟨false, "GEMINI_API_KEY", "gemini-1.5-flash", some 60⟩),
         ("groq", ⟨true, "GROQ_API_KEY", "llama3-8b-8192", some 30⟩)]
        (fun _ => some "k") (fun _ => .ok (some "a sufficiently long answer"))
        0 ["gemini", "groq"] (some "gemini") []).trace =
        (if (try_provider
            [("gemini", ⟨false, "GEMINI_API_KEY", "gemini-1.5-flash", some 60⟩),
             ("groq", ⟨true, "GROQ_API_KEY", "llama3-8b-8192", some 30⟩)]
            (fun _ => some "k") (fun _ => .ok (some "a sufficiently long answer"))
            0 "gemini" []).attempted then ["gemini"] else []) ++ t
        ∧ "gemini" ∉ t)
    ∧ try_provider
        [("gemini", ⟨false, "GEMINI_API_KEY", "gemini-1.5-flash", some 60⟩),
         ("groq", ⟨true, "GROQ_API_KEY", "llama3-8b-8192", some 30⟩)]
        (fun _ => some "k") (fun _ => .ok (some "a sufficiently long answer"))
        0 "gemini" [] = ⟨none, false, []⟩
    ∧ generate_text
        [("gemini", ⟨false, "GEMINI_API_KEY", "gemini-1.5-flash", some 60⟩),
         ("groq", ⟨true, "GROQ_API_KEY", "llama3-8b-8192", some 30⟩)]
        (fun _ => some "k") (fun _ => .ok (some "a sufficiently long answer"))
        0 ["gemini", "groq"] (some "gemini") [] =
        tryFallback
        [("gemini", ⟨false, "GEMINI_API_KEY", "gemini-1.5-flash", some 60⟩),
         ("groq", ⟨true, "GROQ_API_KEY", "llama3-8b-8192", some 30⟩)]
        (fun _ => some "k") (fun _ => .ok (some "a sufficiently long answer"))
        0 (some "gemini") ["gemini", "groq"] [] []
    ∧ "gemini" ∉ (generate_text
        [("gemini", ⟨false, "GEMINI_API_KEY", "gemini-1.5-flash", some 60⟩),
         ("groq", ⟨true, "GROQ_API_KEY", "llama3-8b-8192", some 30⟩)]
        (fun _ => some "k") (fun _ => .ok (some "a sufficiently long answer"))
        0 ["gemini", "groq"] (some "gemini") []).trace := by
  have H := c2_preferred_provider
    [("gemini", ⟨false, "GEMINI_API_KEY", "gemini-1.5-flash", some 60⟩),
     ("groq", ⟨true, "GROQ_API_KEY", "llama3-8b-8192", some 30⟩)]
    (fun _ => some "k") (fun _ => .ok (some "a sufficiently long answer"))
    0 ["gemini", "groq"] "gemini" [] (by decide) (by simp)
  have H2 := H.2 (Or.inr
    ⟨⟨false, "GEMINI_API_KEY", "gemini-1.5-flash", some 60⟩, rfl, Or.inl rfl⟩)
  exact ⟨H.1, H2.1, H2.2.1, H2.2.2⟩

/-! ## Spec-side reformulation of the gateway contract (for C3)

`specCandidates` and `specFirstUsable` follow the words of spec §4.1
("attempt the preferred provider first, then every remaining provider in
fallback order, skipping the preferred one; return the first non-empty,
plausible result, else an explicit none"), to be compared with the
implementation model `generate_text`. -/

/-- Spec §4.1 steps 1-2: the candidate order — the preferred provider (when
given and present in the fallback order) followed by the remaining
fallback providers, the preferred one removed. -/
def specCandidates (fallback : List String) (preferred : Option String) :
    List String :=
  match preferred with
  | none => fallback
  | some p =>
    if p ≠ "" ∧ p ∈ fallback then p :: fallback.filter (fun n => n ≠ p)
    else fallback.filter (fun n => n ≠ p)

/-- Spec §4.1 step 4: try the candidates in order and return the first
usable (truthy) result, `none` when every candidate fails. -/
def specFirstUsable (providers : List (String × ProviderConfig))
    (env : String → Option String) (net : String → Except Unit (Option String))
    (m : Nat) : List String → RateState → Option String
  | [], _ => none
  | n :: rest, rs =>
    let r := try_provider providers env net m n rs
    if isTruthy r.result then r.result
    else specFirstUsable providers env net m rest r.rate

theorem tryFallback_result_spec (providers : List (String × ProviderConfig))
    (env : String → Option String) (net : String → Except Unit (Option String))
    (m : Nat) (p : String) (l : List String) (rs : RateState) (tr : List String) :
    (tryFallback providers env net m (some p) l rs tr).result =
      specFirstUsable providers env net m (l.filter (fun n => n ≠ p)) rs := by
  induction l generalizing rs tr with
  | nil => simp [tryFallback, specFirstUsable]
  | cons n rest ih =>
    by_cases hp : (some p : Option String) = some n
    · have hp2 : n = p := (Option.some_inj.mp hp).symm
      have hfil : (n :: rest).filter (fun x => x ≠ p) =
          rest.filter (fun x => x ≠ p) := by
        simp [List.filter_cons, hp2]
      rw [tryFallback_cons_skip providers env net m (some p) n rest rs tr hp, hfil]
      exact ih rs tr
    · have hnp : ¬ (n = p) := fun h => hp (by rw [h])
      have hfil : (n :: rest).filter (fun x => x ≠ p) =
          n :: rest.filter (fun x => x ≠ p) := by
        simp [List.filter_cons, hnp]
      rw [hfil]
      by_cases ht : isTruthy (try_provider providers env net m n rs).result
      · rw [tryFallback_cons_hit providers env net m (some p) n rest rs tr hp ht]
        simp only [specFirstUsable]
        rw [if_pos ht]
      · rw [tryFallback_cons_miss providers env net m (some p) n rest rs tr hp ht]
        simp only [specFirstUsable]
        rw [if_neg ht]
        exact ih _ _

theorem tryFallback_result_spec_none (providers : List (String × ProviderConfig))
    (env : String → Option String) (net : String → Except Unit (Option String))
    (m : Nat) (l : List String) (rs : RateState) (tr : List String) :
    (tryFallback providers env net m none l rs tr).result =
      specFirstUsable providers env net m l rs := by
  induction l generalizing rs tr with
  | nil => simp [tryFallback, specFirstUsable]
  | cons n rest ih =>
    have hp : (none : Option String) ≠ some n := by simp
    by_cases ht : isTruthy (try_provider providers env net m n rs).result
    · rw [tryFallback_cons_hit providers env net m none n rest rs tr hp ht]
      simp [specFirstUsable, ht]
    · rw [tryFallback_cons_miss providers env net m none n rest rs tr hp ht]
      simp only [specFirstUsable]
      rw [ih]
      simp [ht]

/-- The gateway result refines the spec's candidate scan. -/
theorem generate_text_result_spec (providers : List (String × ProviderConfig))
    (env : String → Option String) (net : String → Except Unit (Option String))
    (m : Nat) (fallback : List String) (preferred : Option String) (rs : RateState) :
    (generate_text providers env net m fallback preferred rs).result =
      specFirstUsable providers env net m (specCandidates fallback preferred) rs := by
  cases preferred with
  | none =>
    simp only [generate_text, specCandidates]
    exact tryFallback_result_spec_none providers env net m fallback rs []
  | some p =>
    by_cases hc : p ≠ "" ∧ p ∈ fallback
    · rw [generate_text_pref providers env net m fallback p rs hc]
      simp only [specCandidates]
      rw [if_pos hc]
      simp only [specFirstUsable]
      by_cases ht : isTruthy (try_provider providers env net m p rs).result
      · rw [if_pos ht, if_pos ht]
      · rw [if_neg ht, if_neg ht]
        exact tryFallback_result_spec providers env net m p fallback _ _
    · rw [generate_text, if_neg hc]
      simp only [specCandidates]
      rw [if_neg hc]
      exact tryFallback_result_spec providers env net m p fallback rs []

/-- A usable result out of the candidate scan is a non-empty string. -/
theorem specFirstUsable_nonempty (providers : List (String × ProviderConfig))
    (env : String → Option String) (net : String → Except Unit (Option String))
    (m : Nat) (l : List String) (rs : RateState) (t : String)
    (h : specFirstUsable providers env net m l rs = some t) : t ≠ "" := by
  induction l generalizing rs with
  | nil => simp [specFirstUsable] at h
  | cons n rest ih =>
    simp only [specFirstUsable] at h
    by_cases ht : isTruthy (try_provider providers env net m n rs).result
    · rw [if_pos ht] at h
      rw [h] at ht
      simpa [isTruthy] using ht
    · rw [if_neg ht] at h
      exact ih _ h

/-- A raised vendor-adapter exception is swallowed by `_try_provider`'s
`try/except`: the attempt just reports failure. -/
theorem try_provider_error_caught (providers : List (String × ProviderConfig))
    (env : String → Option String) (net : String → Except Unit (Option String))
    (m : Nat) (name : String) (rs : RateState) (h : net name = Except.error ()) :
    (try_provider providers env net m name rs).result = none := by
  unfold try_provider
  repeat' split
  all_goals simp_all [apply_ite TryResult.result]

/-- Every string produced by `_call_gemini` is non-empty and longer than 20
characters (the plausibility filter). -/
theorem call_gemini_plausible (e : Except Unit GeminiResponse) (t : String)
    (h : call_gemini e = some t) : t ≠ "" ∧ 20 < t.length := by
  match e with
  | .error _ => simp [call_gemini] at h
  | .ok ⟨st, cands⟩ =>
    by_cases hs : st = 200
    · subst hs
      match cands with
      | none => simp [call_gemini] at h
      | some [] => simp [call_gemini] at h
      | some (⟨none⟩ :: cs) => simp [call_gemini] at h
      | some (⟨some ⟨none⟩⟩ :: cs) => simp [call_gemini] at h
      | some (⟨some ⟨some []⟩⟩ :: cs) => simp [call_gemini] at h
      | some (⟨some ⟨some (p :: ps)⟩⟩ :: cs) =>
        rw [show call_gemini (Except.ok ⟨200, some (⟨some ⟨some (p :: ps)⟩⟩ :: cs)⟩) =
            (if pyStrip (p.text.getD "") ≠ "" ∧ 20 < (pyStrip (p.text.getD "")).length
             then some (pyStrip (p.text.getD "")) else none) from rfl] at h
        by_cases hcond : pyStrip (p.text.getD "") ≠ "" ∧
            20 < (pyStrip (p.text.getD "")).length
        · rw [if_pos hcond] at h
          obtain rfl := Option.some_inj.mp h
          exact hcond
        · rw [if_neg hcond] at h
          simp at h
    · simp [call_gemini, hs] at h

/-- C3: (i) the gateway result is exactly the first usable result of the
spec's candidate scan (preferred first, then fallback order minus the
preferred name); (ii) the outcome is always either an explicit `none` or a
non-empty text — the model is a total function, nothing is raised to the
caller; (iii) a vendor adapter raising is caught and treated as a failed
attempt; (iv) the Gemini adapter returns failure, not an error, on a
raised request, a non-200 status, a missing `candidates` array, a
candidate without content, or a part without text; (v) any text it does
return passed the plausibility filter (non-empty, longer than 20
characters). -/
theorem c3_first_usable_and_errors :
    (∀ providers env net m fallback preferred rs,
      (generate_text providers env net m fallback preferred rs).result =
        specFirstUsable providers env net m (specCandidates fallback preferred) rs)
    ∧ (∀ providers env net m fallback preferred rs,
      (generate_text providers env net m fallback preferred rs).result = none
      ∨ ∃ t, (generate_text providers env net m fallback preferred rs).result =
          some t ∧ t ≠ "")
    ∧ (∀ providers env net m name rs, net name = Except.error () →
      (try_provider providers env net m name rs).result = none)
    ∧ call_gemini (Except.error ()) = none
    ∧ (∀ st cands, st ≠ 200 → call_gemini (Except.ok ⟨st, cands⟩) = none)
    ∧ (∀ st, call_gemini (Except.ok ⟨st, none⟩) = none)
    ∧ call_gemini (Except.ok ⟨200, some [⟨none⟩]⟩) = none
    ∧ call_gemini (Except.ok ⟨200, some [⟨some ⟨some [⟨none⟩]⟩⟩]⟩) = none
    ∧ (∀ e t, call_gemini e = some t → t ≠ "" ∧ 20 < t.length) := by
  refine ⟨generate_text_result_spec, ?_, try_provider_error_caught, rfl, ?_, ?_,
    rfl, rfl, call_gemini_plausible⟩
  · intro providers env net m fallback preferred rs
    cases hr : (generate_text providers env net m fallback preferred rs).result with
    | none => exact Or.inl rfl
    | some t =>
      refine Or.inr ⟨t, rfl, ?_⟩
      rw [generate_text_result_spec] at hr
      exact specFirstUsable_nonempty providers env net m _ rs t hr
  · intro st cands h
    simp [call_gemini, h]
  · intro st
    by_cases h : st = 200
    · simp [call_gemini, h]
    · simp [call_gemini, h]

/-- Witness for C3: an erroring network call yields a failed attempt, a 404
status and an empty body yield adapter failure, and a concrete well-formed
200 response passes the plausibility filter. -/
theorem c3_first_usable_and_errors_witness :
    (generate_text [("gemini", ⟨true, "GEMINI_API_KEY", "g", some 60⟩)]
        (fun _ => some "k") (fun _ => Except.error ()) 0 ["gemini"] none []).result =
      specFirstUsable [("gemini", ⟨true, "GEMINI_API_KEY", "g", some 60⟩)]
        (fun _ => some "k") (fun _ => Except.error ()) 0
        (specCandidates ["gemini"] none) []
    ∧ (try_provider [("gemini", ⟨true, "GEMINI_API_KEY", "g", some 60⟩)]
        (fun _ => some "k") (fun _ => Except.error ()) 0 "gemini" []).result = none
    ∧ call_gemini (Except.ok ⟨404, some [⟨some ⟨some [⟨some
        "a perfectly fine answer body"⟩]⟩⟩]⟩) = none
    ∧ ("this answer is long enough ok" ≠ ""
        ∧ 20 < ("this answer is long enough ok" : String).length) := by
  have H := c3_first_usable_and_errors
  refine ⟨H.1 _ _ _ _ _ _ _, ?_, ?_, ?_⟩
  · exact H.2.2.1 [("gemini", ⟨true, "GEMINI_API_KEY", "g", some 60⟩)]
      (fun _ => some "k") (fun _ => Except.error ()) 0 "gemini" [] rfl
  · exact H.2.2.2.2.1 404 (some [⟨some ⟨some [⟨some
      "a perfectly fine answer body"⟩]⟩⟩]) (by decide)
  · exact H.2.2.2.2.2.2.2.2 (Except.ok ⟨200, some [⟨some ⟨some [⟨some
      "this answer is long enough ok"⟩]⟩⟩]⟩) "this answer is long enough ok"
      (by decide)

/-! ## Feedback-log truncation (C4, C8) -/

/-- The arguments of one `add_feedback` call (`now` models the timestamp
taken inside the call). -/
structure FeedbackCall where
  original : String
  generated : String
  task_type : String
  rating : Int
  comments : String
  category : String
  option_id : Option String
  now : String
deriving DecidableEq, Repr

/-- The `FeedbackEntry` that `add_feedback` builds for a call. -/
def callEntry (c : FeedbackCall) : FeedbackEntry :=
  ⟨c.original, c.generated, c.rating, c.comments, c.now, c.task_type,
   c.category, c.option_id⟩

/-- Run a sequence of `add_feedback` calls against a learning-data state. -/
def runCalls (ld : LearningData) (calls : List FeedbackCall) : LearningData :=
  calls.foldl (fun ld c => add_feedback ld c.original c.generated c.task_type
    c.rating c.comments c.category c.option_id c.now) ld

theorem update_user_preferences_history (ld : LearningData) (e : FeedbackEntry) :
    (update_user_preferences ld e).feedback_history = ld.feedback_history := by
  unfold update_user_preferences
  repeat' split
  all_goals rfl

/-- One `add_feedback` call appends its entry and keeps the last 100. -/
theorem add_feedback_history (ld : LearningData) (c : FeedbackCall) :
    (add_feedback ld c.original c.generated c.task_type c.rating c.comments
      c.category c.option_id c.now).feedback_history =
      lastN 100 (ld.feedback_history ++ [callEntry c]) := by
  unfold add_feedback
  rw [update_user_preferences_history]
  rfl

theorem lastN_le_length (n : Nat) (l : List FeedbackEntry) :
    (lastN n l).length ≤ n := by
  simp only [lastN, List.length_drop]
  omega

set_option maxRecDepth 2000 in
/-- Re-truncating after an append collapses: the last 100 of (last 100 of
`A`) ++ `B` are the last 100 of `A ++ B`. -/
theorem lastN_append_collapse (A B : List FeedbackEntry) :
    lastN 100 (lastN 100 A ++ B) = lastN 100 (A ++ B) := by
  simp only [lastN]
  rw [← List.drop_append_of_le_length (n := A.length - 100) (by omega)]
  rw [List.drop_drop]
  congr 1
  simp only [List.length_drop, List.length_append]
  omega

theorem runCalls_history_aux (calls : List FeedbackCall) :
    ∀ ld : LearningData, (runCalls ld calls).feedback_history =
      if calls = [] then ld.feedback_history
      else lastN 100 (ld.feedback_history ++ calls.map callEntry) := by
  induction calls with
  | nil =>
    intro ld
    simp [runCalls]
  | cons c cs ih =>
    intro ld
    have hstep : runCalls ld (c :: cs) =
        runCalls (add_feedback ld c.original c.generated c.task_type c.rating
          c.comments c.category c.option_id c.now) cs := rfl
    rw [hstep, ih, if_neg (List.cons_ne_nil c cs)]
    by_cases hcs : cs = []
    · subst hcs
      rw [if_pos rfl, add_feedback_history ld c]
      simp
    · rw [if_neg hcs, add_feedback_history ld c, lastN_append_collapse]
      simp

theorem runCalls_history (ld : LearningData) (calls : List FeedbackCall)
    (h : calls ≠ []) :
    (runCalls ld calls).feedback_history =
      lastN 100 (ld.feedback_history ++ calls.map callEntry) := by
  rw [runCalls_history_aux calls ld, if_neg h]

/-- C4: after every non-empty sequence of `record` calls the persisted
feedback history is exactly the most recent 100 entries of the initial
log extended by the calls' entries in insertion order (oldest evicted
first), and its length never exceeds 100. -/
theorem c4_feedback_log_bounded (ld : LearningData) (calls : List FeedbackCall)
    (h : calls ≠ []) :
    (runCalls ld calls).feedback_history =
      lastN 100 (ld.feedback_history ++ calls.map callEntry)
    ∧ (runCalls ld calls).feedback_history.length ≤ 100 := by
  refine ⟨runCalls_history ld calls h, ?_⟩
  rw [runCalls_history ld calls h]
  exact lastN_le_length 100 _

/-- Witness for C4: a single call on an empty log retains exactly that
entry. -/
theorem c4_feedback_log_bounded_witness :
    (runCalls ⟨[], none⟩ [⟨"orig", "gen", "generate", 5, "", "General", none, "t0"⟩]).feedback_history =
      lastN 100 (([] : List FeedbackEntry) ++
        [⟨"orig", "gen", "generate", 5, "", "General", none, "t0"⟩].map callEntry)
    ∧ (runCalls ⟨[], none⟩ [⟨"orig", "gen", "generate", 5, "", "General", none, "t0"⟩]).feedback_history.length ≤ 100 :=
  c4_feedback_log_bounded ⟨[], none⟩
    [⟨"orig", "gen", "generate", 5, "", "General", none, "t0"⟩]
    (by decide)

/-! ## Derived length preference (C5) -/

/-- For feedback rated ≥ 4, `_update_user_preferences` sets
`preferred_length` from the generated text's word count: `< 100 ↦ short`,
`> 250 ↦ long`, otherwise `medium`. -/
theorem preferred_length_of_rating (ld : LearningData) (e : FeedbackEntry)
    (h4 : 4 ≤ e.rating) :
    (update_user_preferences ld e).user_preferences.map
        (fun p => p.preferred_length) =
      some (if countWords e.generated_text < 100 then "short"
            else if 250 < countWords e.generated_text then "long"
            else "medium") := by
  unfold update_user_preferences
  rw [if_pos h4]
  split <;> rfl

set_option maxRecDepth 40000 in
/-- C5 (counterexample): `record` with rating 5 and a generated text of
exactly 80 words sets `preferred_length` to `"short"`, not `"medium"` as
the claim states. -/
theorem c5_counterexample :
    countWords (String.intercalate " " (List.replicate 80 "palabra")) = 80
    ∧ (add_feedback ⟨[], none⟩ "tema"
        (String.intercalate " " (List.replicate 80 "palabra"))
        "generate" 5 "" "General" none "t").user_preferences.map
        (fun p => p.preferred_length) = some "short"
    ∧ ("short" : String) ≠ "medium" := by
  refine ⟨by decide, by decide, by decide⟩

/-- C5 (amended): `record` with rating 5 and an 80-word generated text sets
`preferred_length` to `"short"` (80 is below the 100-word short
threshold); with a 300-word text it sets `"long"`. -/
theorem c5_amended_length_preference (ld : LearningData)
    (orig gen task comments cat now : String) (oid : Option String) :
    (countWords gen = 80 →
      (add_feedback ld orig gen task 5 comments cat oid now).user_preferences.map
        (fun p => p.preferred_length) = some "short")
    ∧ (countWords gen = 300 →
      (add_feedback ld orig gen task 5 comments cat oid now).user_preferences.map
        (fun p => p.preferred_length) = some "long") := by
  constructor
  · intro h
    unfold add_feedback
    rw [preferred_length_of_rating _ _ (by norm_num)]
    simp only
    rw [h]
    simp
  · intro h
    unfold add_feedback
    rw [preferred_length_of_rating _ _ (by norm_num)]
    simp only
    rw [h]
    simp

set_option maxRecDepth 40000 in
/-- Witness for the amended C5 at concrete 80- and 300-word texts. -/
theorem c5_amended_length_preference_witness :
    (add_feedback ⟨[], none⟩ "tema"
        (String.intercalate " " (List.replicate 80 "palabra"))
        "generate" 5 "" "General" none "t").user_preferences.map
        (fun p => p.preferred_length) = some "short"
    ∧ (add_feedback ⟨[], none⟩ "tema"
        (String.intercalate " " (List.replicate 300 "palabra"))
        "generate" 5 "" "General" none "t").user_preferences.map
        (fun p => p.preferred_length) = some "long" :=
  ⟨(c5_amended_length_preference ⟨[], none⟩ "tema"
      (String.intercalate " " (List.replicate 80 "palabra"))
      "generate" "" "General" "t" none).1 (by decide),
   (c5_amended_length_preference ⟨[], none⟩ "tema"
      (String.intercalate " " (List.replicate 300 "palabra"))
      "generate" "" "General" "t" none).2 (by decide)⟩

/-! ## The correction fallback (C6) -/

/-- The deterministic fallback always returns a non-empty text: a short
corrected text gets the gratitude sentence appended, and a text of 30 or
more words cannot be empty. -/
theorem correct_text_intelligently_nonempty (t : String) :
    correct_text_intelligently t ≠ "" := by
  unfold correct_text_intelligently
  by_cases h : countWords
      (replacements.foldl (fun acc r => reSubWord r.1 r.2.1 r.2.2 acc) t) < 30
  · rw [if_pos h]
    intro hemp
    have hd := congrArg String.data hemp
    rw [String.data_append] at hd
    have hg : gratitudeSentence.data = [] :=
      (List.append_eq_nil.mp (by simpa using hd)).2
    exact absurd hg (by decide)
  · rw [if_neg h]
    intro hemp
    rw [hemp] at h
    exact h (by decide)

set_option maxRecDepth 40000 in
/-- C6: with no usable provider result, `correct_text` degrades to the
deterministic local fallback; on the input
`"Los empleados hicieron un buen trabajo"` the output contains
`"colaboradores"`, does not contain `"empleados"`, and — the corrected
text being under 30 words — ends with the fixed gratitude sentence; and
the fallback is total and never returns an empty text. -/
theorem c6_correction_fallback :
    correct_text none "Los empleados hicieron un buen trabajo" =
      correct_text_intelligently "Los empleados hicieron un buen trabajo"
    ∧ ("colaboradores".data <:+:
        (correct_text none "Los empleados hicieron un buen trabajo").data)
    ∧ ¬ ("empleados".data <:+:
        (correct_text none "Los empleados hicieron un buen trabajo").data)
    ∧ (gratitudeSentence.data <:+
        (correct_text none "Los empleados hicieron un buen trabajo").data)
    ∧ (∀ t, correct_text none t ≠ "") :=
  ⟨rfl, by decide, by decide, by decide,
   fun t => correct_text_intelligently_nonempty t⟩

/-! ## Multi-option generation (C7) -/

theorem config_tags_getD (k : Nat) (hk : k < 5) :
    (configurations[k]?).map (fun c => (c.temp, c.approach)) =
      some ((configurations.getD k ⟨0, "", ""⟩).temp,
            (configurations.getD k ⟨0, "", ""⟩).approach) := by
  interval_cases k <;> rfl

/-- Option `i` carries the temperature and approach of rotation entry
`i % 5`. -/
theorem option_tags (gen : Nat → Option String) (n i : Nat) (hi : i < n) :
    ((generate_multiple_options gen n)[i]?).map
        (fun o => (o.temperature, o.approach)) =
      (configurations[i % 5]?).map (fun c => (c.temp, c.approach)) := by
  have h5 : i % 5 < 5 := Nat.mod_lt _ (by norm_num)
  unfold generate_multiple_options
  rw [List.getElem?_map, List.getElem?_range hi, Option.map_some']
  rw [config_tags_getD (i % 5) h5]
  rfl

/-- C7: the rotation has 5 entries; `num_options = n` produces exactly `n`
options; option `i` is tagged with the temperature and approach of
rotation entry `i % 5` (so requests beyond 5 options cycle); and within
the first 5 options no approach repeats. -/
theorem c7_multiple_options :
    configurations.length = 5
    ∧ (∀ gen, (generate_multiple_options gen 5).length = 5)
    ∧ (∀ gen n, (generate_multiple_options gen n).length = n)
    ∧ (∀ gen n i, i < n →
        ((generate_multiple_options gen n)[i]?).map
            (fun o => (o.temperature, o.approach)) =
          (configurations[i % 5]?).map (fun c => (c.temp, c.approach)))
    ∧ (∀ gen i j, i < j → j < 5 →
        ((generate_multiple_options gen 5)[i]?).map (fun o => o.approach) ≠
          ((generate_multiple_options gen 5)[j]?).map (fun o => o.approach)) := by
  refine ⟨rfl, ?_, ?_, option_tags, ?_⟩
  · intro gen
    simp [generate_multiple_options]
  · intro gen n
    simp [generate_multiple_options]
  · intro gen i j hij hj5
    have hi5 : i < 5 := lt_trans hij hj5
    have happ : ∀ k, k < 5 →
        ((generate_multiple_options gen 5)[k]?).map (fun o => o.approach) =
          (configurations[k]?).map (fun c => c.approach) := by
      intro k hk
      have h := option_tags gen 5 k hk
      rw [Nat.mod_eq_of_lt hk] at h
      unfold generate_multiple_options at h ⊢
      rw [List.getElem?_map, List.getElem?_range hk, Option.map_some'] at h ⊢
      interval_cases k <;> rfl
    rw [happ i hi5, happ j hj5]
    interval_cases j <;> interval_cases i <;> decide

/-- Witness for C7: 5 requested options give 5 options; option 6 of 7 reuses
rotation entry 1 (index `6 % 5`); options 0 and 1 differ in approach. -/
theorem c7_multiple_options_witness :
    (generate_multiple_options (fun _ => none) 5).length = 5
    ∧ ((generate_multiple_options (fun _ => none) 7)[6]?).map
        (fun o => (o.temperature, o.approach)) =
      (configurations[6 % 5]?).map (fun c => (c.temp, c.approach))
    ∧ ((generate_multiple_options (fun _ => none) 5)[0]?).map (fun o => o.approach) ≠
      ((generate_multiple_options (fun _ => none) 5)[1]?).map (fun o => o.approach) := by
  have H := c7_multiple_options
  exact ⟨H.2.1 (fun _ => none),
    H.2.2.2.1 (fun _ => none) 7 6 (by decide),
    H.2.2.2.2 (fun _ => none) 0 1 (by decide) (by decide)⟩

/-! ## Feedback rating validation (C8) -/

/-- C8 (counterexample): a `record` call with rating 6 — outside `[1, 5]` —
is not rejected: its entry is persisted verbatim into the feedback log. -/
theorem c8_counterexample :
    (add_feedback ⟨[], none⟩ "orig" "gen" "generate" 6 "" "General" none "t").feedback_history =
      [⟨"orig", "gen", 6, "", "t", "generate", "General", none⟩]
    ∧ ¬ ((1 : Int) ≤ 6 ∧ (6 : Int) ≤ 5) := by
  refine ⟨by decide, by decide⟩

/-- C8 (amended): `add_feedback` performs no rating validation at all — for
every rating, in range or not, the entry is appended to the feedback log
(subject only to the 100-entry truncation). -/
theorem c8_amended_no_validation (ld : LearningData)
    (orig gen task comments cat now : String) (rating : Int)
    (oid : Option String) :
    (add_feedback ld orig gen task rating comments cat oid now).feedback_history =
      lastN 100 (ld.feedback_history ++
        [⟨orig, gen, rating, comments, now, task, cat, oid⟩]) :=
  add_feedback_history ld ⟨orig, gen, task, rating, comments, cat, oid, now⟩

/-! ## The length slider (C9) -/

/-- C9: the slider value in words is converted at exactly 5 characters per
word (`60 ↦ 300`), but the call site's `max_chars` keyword names no formal
parameter of `MinimalChatBot.generate_text`, so the call is rejected
(Python raises `TypeError`) instead of passing the budget through. -/
theorem c9_max_chars_conversion_and_call :
    (∀ w, text_length_chars w = w * 5)
    ∧ text_length_chars 60 = 300
    ∧ kwCallAccepted botGenerateTextParams appGenerateCallKwargs = false
    ∧ "max_chars" ∉ botGenerateTextParams :=
  ⟨fun _ => rfl, rfl, by decide, by decide⟩

/-! ## The chatbot generation wrapper (C10) -/

/-- C10: `MinimalChatBot.generate_text` never returns an empty outcome: it
returns the stripped gateway result exactly when that is strictly longer
than 50 characters, and the fixed error message otherwise (including for
the gateway's `none`); in particular a gateway result whose strip is
between 21 and 50 characters — already accepted by the adapters'
`> 20` plausibility filter, as the Gemini adapter shows — is discarded in
favour of the error message. -/
theorem c10_bot_generate_text :
    (∀ gw, bot_generate_text gw ≠ "")
    ∧ (∀ r, 50 < (pyStrip r).length → bot_generate_text (some r) = pyStrip r)
    ∧ (∀ r, (pyStrip r).length ≤ 50 → bot_generate_text (some r) = genErrorMsg)
    ∧ bot_generate_text none = genErrorMsg
    ∧ (∃ resp t, call_gemini (Except.ok resp) = some t ∧ 20 < t.length
        ∧ t.length ≤ 50 ∧ bot_generate_text (some t) = genErrorMsg) := by
  have hlong : ∀ r, 50 < (pyStrip r).length → bot_generate_text (some r) = pyStrip r := by
    intro r h
    have hne : r ≠ "" := by
      intro hr
      subst hr
      revert h
      decide
    simp only [bot_generate_text]
    rw [if_pos ⟨hne, h⟩]
  have hshort : ∀ r, (pyStrip r).length ≤ 50 →
      bot_generate_text (some r) = genErrorMsg := by
    intro r h
    simp only [bot_generate_text]
    rw [if_neg]
    rintro ⟨_, h2⟩
    omega
  refine ⟨?_, hlong, hshort, rfl, ?_⟩
  · intro gw
    match gw with
    | none => decide
    | some r =>
      by_cases h : 50 < (pyStrip r).length
      · rw [hlong r h]
        intro hemp
        rw [hemp] at h
        revert h
        decide
      · rw [hshort r (by omega)]
        decide
  · refine ⟨⟨200, some [⟨some ⟨some [⟨some
      "a plausible but short reply, 21+"⟩]⟩⟩]⟩,
      "a plausible but short reply, 21+", by decide, by decide, by decide, by decide⟩

/-- Witness for C10 at concrete gateway results: a 60-character result is
passed through stripped, a 30-character one is replaced by the error
message. -/
theorem c10_bot_generate_text_witness :
    bot_generate_text (some "cccccccccccccccccccccccccccccccccccccccccccccccccccccccccccc") =
      pyStrip "cccccccccccccccccccccccccccccccccccccccccccccccccccccccccccc"
    ∧ bot_generate_text (some "cccccccccccccccccccccccccccccc") = genErrorMsg := by
  have H := c10_bot_generate_text
  exact ⟨H.2.1 "cccccccccccccccccccccccccccccccccccccccccccccccccccccccccccc" (by decide),
    H.2.2.1 "cccccccccccccccccccccccccccccc" (by decide)⟩

end ChatClAb
